import Mathlib

/-
Verification of the Bodo-tutorial repository: a shallow embedding of its two
files (README.md and bodo_getting_started.ipynb) and proofs about them.
The notebook is embedded as the parse result of its JSON on-disk form
(nbformat 4.2): a list of cells, each carrying its cell_type, joined source
string, execution count, attachments and captured outputs, transcribed
verbatim from src/bodo_getting_started.ipynb.
-/

/-- A captured output of a notebook code cell, mirroring the nbformat
output objects that occur in the file: stream outputs (name, joined text),
error outputs (ename, evalue, traceback lines) and execute_result outputs
(mime-type/joined-text pairs and an execution count). -/
inductive NbOutput where
  | stream (name : String) (text : String)
  | error (ename : String) (evalue : String) (traceback : List String)
  | executeResult (data : List (String × String)) (executionCount : Nat)
deriving DecidableEq

/-- A notebook cell: its cell_type string, joined source string, optional
execution_count, optional attachments (mime/data pairs per attachment name)
and optional outputs list, mirroring which keys the JSON object of each
cell carries (markdown cells have no outputs key; no cell in the file has
an attachments key). -/
structure NbCell where
  cellType : String
  source : String
  executionCount : Option Nat
  attachments : Option (List (String × List (String × String)))
  outputs : Option (List NbOutput)
deriving DecidableEq

/-- A notebook document: nbformat version and the linear list of cells. -/
structure Notebook where
  nbformat : Nat
  nbformatMinor : Nat
  cells : List NbCell
deriving DecidableEq

def bodoGettingStarted : Notebook :=
  { nbformat := 4, nbformatMinor := 2,
    cells := [
      -- cell 0
      { cellType := "markdown",
        source := "# Bodo Getting Started Tutorial\n\nBodo is the simplest and most efficient analytics engine. It accelerates and scales data science programs\nautomatically and enables instant deployment, eliminating the need to rewrite Python analytics code to Spark/Scala, SQL or MPI/C++.\nIn this tutorial, we will cover the basics of using Bodo and explain its important concepts.\n\nIn a nutshell, Bodo provides a just-in-time (JIT) compilation workflow using the \x60@bodo.jit\x60 decorator. It replaces decorated Python functions with an optimized and parallelized binary version using advanced compilation methods.\n\nLet\x27s get started!",
        executionCount := none,
        attachments := none,
        outputs := none },
      -- cell 1
      { cellType := "markdown",
        source := "## Environment Setup\nPlease follow the [Bodo installation](http://docs.bodo.ai/latest/source/install.html) and [Jupyter Notebook Setup](http://docs.bodo.ai/latest/source/jupyter.html) pages to setup the environment. Also, make sure MPI engines are started in the \x60IPython Clusters\x60 tab (or using \x60ipcluster start -n 4 --profile=mpi\x60 in command line), then initialize the \x60ipyparallel\x60 environment:",
        executionCount := none,
        attachments := none,
        outputs := none },
      -- cell 2
      { cellType := "code",
        source := "import ipyparallel as ipp\nc = ipp.Client(profile=\x27mpi\x27)\nview = c[:]\nview.activate()",
        executionCount := some 1,
        attachments := none,
        outputs := some [] },
      -- cell 3
      { cellType := "markdown",
        source := "## Parallel Pandas with Bodo\nFirst, we demonstrate how Bodo automatically parallelizes and optimizes standard Python programs that make use of pandas and NumPy, without the need to rewrite your code. Bodo can scale your analytics code to thousands of cores, providing orders of magnitude speed up depending on program characteristics.",
        executionCount := none,
        attachments := none,
        outputs := none },
      -- cell 4
      { cellType := "markdown",
        source := "### Generate data\nTo begin, let\x27s generate a simple dataset (the size of this dataframe in memory is approximately 305 MB, and the size of the written Parquet file is 77 MB):",
        executionCount := none,
        attachments := none,
        outputs := none },
      -- cell 5
      { cellType := "code",
        source := "import pandas as pd\nimport numpy as np\n\nNUM_GROUPS = 30\nNUM_ROWS = 20_000_000\ndf = pd.DataFrame(\x7b\n    \"A\": np.arange(NUM_ROWS) % NUM_GROUPS,\n    \"B\": np.arange(NUM_ROWS)\n\x7d)\ndf.to_parquet(\"example1.pq\")\nprint(df)",
        executionCount := some 2,
        attachments := none,
        outputs := some [NbOutput.stream "stdout" "           A         B\n0          0         0\n1          1         1\n2          2         2\n3          3         3\n4          4         4\n...       ..       ...\n19999995  15  19999995\n19999996  16  19999996\n19999997  17  19999997\n19999998  18  19999998\n19999999  19  19999999\n\n[20000000 rows x 2 columns]\n"] },
      -- cell 6
      { cellType := "markdown",
        source := "### Data Analysis\nNow let\x27s read and process this dataframe. First using Python and pandas:",
        executionCount := none,
        attachments := none,
        outputs := none },
      -- cell 7
      { cellType := "code",
        source := "def test():\n    df = pd.read_parquet(\"example1.pq\")\n    df2 = df.groupby(\"A\").sum()\n    m = df2.B.max()\n    print(m)\n\ntest()",
        executionCount := some 3,
        attachments := none,
        outputs := some [NbOutput.stream "stdout" "6666676000003\n"] },
      -- cell 8
      { cellType := "markdown",
        source := "Now let\x27s run it with Bodo in parallel. To do this, all that we have to do is add the \x60bodo.jit\x60 decorator to the function, and run the program with MPI (on Jupyter Notebook, use the \x60%%px --block\x60 [*magic*](https://ipyparallel.readthedocs.io/en/latest/magics.html) to run on MPI engines):",
        executionCount := none,
        attachments := none,
        outputs := none },
      -- cell 9
      { cellType := "code",
        source := "%%px --block\nimport pandas as pd\nimport bodo\n\n@bodo.jit\ndef test():\n    df = pd.read_parquet(\"example1.pq\")\n    df2 = df.groupby(\"A\").sum()\n    m = df2.B.max()\n    print(m)\n\ntest()",
        executionCount := some 4,
        attachments := none,
        outputs := some [NbOutput.stream "stdout" "[stdout:0] 6666676000003\n"] },
      -- cell 10
      { cellType := "markdown",
        source := "Although the program appears to be a regular sequential Python program, Bodo compiles and *transforms* the decorated code (the \x60test\x60 function in this example) under the hood, so that it can run in parallel on many cores. Each core operates on a different chunk of the data and communicates with other cores when necessary.",
        executionCount := none,
        attachments := none,
        outputs := none },
      -- cell 11
      { cellType := "markdown",
        source := "### Parallel Python Processes\nWith Bodo, all processes are running the same code. Bodo manages parallelism inside \x60jit\x60 functions to match sequential Python as much as possible. On the other hand, the code outside \x60jit\x60 functions runs as regular Python on all processes. For example, the code below when run on 4 processes produces 4 prints, one for each Python process:",
        executionCount := none,
        attachments := none,
        outputs := none },
      -- cell 12
      { cellType := "code",
        source := "%%px --block\n\n@bodo.jit\ndef test():\n    df = pd.read_parquet(\"example1.pq\")\n    df2 = df.groupby(\"A\").sum()\n    m = df2.B.max()\n    return m\n\nm = test()\nprint(m)",
        executionCount := some 5,
        attachments := none,
        outputs := some [NbOutput.stream "stdout" "[stdout:0] 6666676000003\n[stdout:1] 6666676000003\n[stdout:2] 6666676000003\n[stdout:3] 6666676000003\n"] },
      -- cell 13
      { cellType := "markdown",
        source := "### Prints\nBodo prints replicated values like \x60m\x60 only once (on process \x600\x60) to avoid redundant printing, but we can use \x60bodo.parallel_print\x60 to see prints on all processes:",
        executionCount := none,
        attachments := none,
        outputs := none },
      -- cell 14
      { cellType := "code",
        source := "%%px --block\n\n@bodo.jit\ndef test():\n    df = pd.read_parquet(\"example1.pq\")\n    df2 = df.groupby(\"A\").sum()\n    m = df2.B.max()\n    bodo.parallel_print(m)\n\ntest()",
        executionCount := some 6,
        attachments := none,
        outputs := some [NbOutput.stream "stdout" "[stdout:0] 6666676000003\n[stdout:1] 6666676000003\n[stdout:2] 6666676000003\n[stdout:3] 6666676000003\n"] },
      -- cell 15
      { cellType := "markdown",
        source := "### Parallel Data Read\n\nBodo can read data from storage such as Parquet files in parallel. This means that each process reads only its own chunk of data (which can be proportionally faster than sequential read). The example below demonstrates parallel read by printing data chunks on different cores:",
        executionCount := none,
        attachments := none,
        outputs := none },
      -- cell 16
      { cellType := "code",
        source := "%%px --block\n\n@bodo.jit\ndef test():\n    df = pd.read_parquet(\"example1.pq\")\n    print(df)\n\ntest()",
        executionCount := some 7,
        attachments := none,
        outputs := some [NbOutput.stream "stdout" "[stdout:0] \n          A        B\n0         0        0\n1         1        1\n2         2        2\n3         3        3\n4         4        4\n...      ..      ...\n4999995  15  4999995\n4999996  16  4999996\n4999997  17  4999997\n4999998  18  4999998\n4999999  19  4999999\n\n[5000000 rows x 2 columns]\n[stdout:1] \n          A        B\n5000000  20  5000000\n5000001  21  5000001\n5000002  22  5000002\n5000003  23  5000003\n5000004  24  5000004\n...      ..      ...\n9999995   5  9999995\n9999996   6  9999996\n9999997   7  9999997\n9999998   8  9999998\n9999999   9  9999999\n\n[5000000 rows x 2 columns]\n[stdout:2] \n           A         B\n10000000  10  10000000\n10000001  11  10000001\n10000002  12  10000002\n10000003  13  10000003\n10000004  14  10000004\n...       ..       ...\n14999995  25  14999995\n14999996  26  14999996\n14999997  27  14999997\n14999998  28  14999998\n14999999  29  14999999\n\n[5000000 rows x 2 columns]\n[stdout:3] \n           A         B\n15000000   0  15000000\n15000001   1  15000001\n15000002   2  15000002\n15000003   3  15000003\n15000004   4  15000004\n...       ..       ...\n19999995  15  19999995\n19999996  16  19999996\n19999997  17  19999997\n19999998  18  19999998\n19999999  19  19999999\n\n[5000000 rows x 2 columns]\n"] },
      -- cell 17
      { cellType := "markdown",
        source := "Looking at column B, we can clearly see that each process has a separate chunk of the original dataframe. ",
        executionCount := none,
        attachments := none,
        outputs := none },
      -- cell 18
      { cellType := "markdown",
        source := "### Parallelizing Computation\n\n![Groupby shuffle communication pattern](img/groupby.jpg)\n\nBodo parallelizes computation automatically by dividing the work between cores and performing the necessary data communication. For example, the \x60groupby\x60 operation in our example needs the data of each group to be on the same processor. This requires *shuffling* data across the cluster. Bodo uses [MPI](https://en.wikipedia.org/wiki/Message_Passing_Interface) for efficient communication, which is usually much faster than alternative methods.",
        executionCount := none,
        attachments := none,
        outputs := none },
      -- cell 19
      { cellType := "markdown",
        source := "### Parallel Write\n\nBodo can write data to storage in parallel as well:",
        executionCount := none,
        attachments := none,
        outputs := none },
      -- cell 20
      { cellType := "code",
        source := "%%px --block\n\n@bodo.jit\ndef test():\n    df = pd.read_parquet(\"example1.pq\")\n    df2 = df.groupby(\"A\").sum()\n    df2.to_parquet(\"example1-df2.pq\")\n\ntest()",
        executionCount := some 8,
        attachments := none,
        outputs := some [] },
      -- cell 21
      { cellType := "markdown",
        source := "Now let\x27s read and print the results with pandas:",
        executionCount := none,
        attachments := none,
        outputs := none },
      -- cell 22
      { cellType := "code",
        source := "import pandas as pd\n\ndf = pd.read_parquet(\"example1-df2.pq\")\nprint(df)",
        executionCount := some 9,
        attachments := none,
        outputs := some [NbOutput.stream "stdout" "                B\nA                \n0   6666663333330\n4   6666665999998\n6   6666667333332\n16  6666674000002\n20  6666656666670\n24  6666659333334\n28  6666661999998\n1   6666663999997\n7   6666667999999\n8   6666668666666\n11  6666670666667\n12  6666671333334\n13  6666672000001\n15  6666673333335\n18  6666675333336\n5   6666666666665\n19  6666676000003\n21  6666657333336\n22  6666658000002\n23  6666658666668\n29  6666662666664\n2   6666664666664\n3   6666665333331\n9   6666669333333\n10  6666670000000\n14  6666672666668\n17  6666674666669\n25  6666660000000\n26  6666660666666\n27  6666661333332\n"] },
      -- cell 23
      { cellType := "markdown",
        source := "The order of the \x60groupby\x60 results generated by Bodo can differ from pandas since Bodo doesn\x27t automatically sort the output distributed data (it is expensive and not necessary in many cases). Users can explicitly sort dataframes at any point if desired.",
        executionCount := none,
        attachments := none,
        outputs := none },
      -- cell 24
      { cellType := "markdown",
        source := "### Specifying Data Distribution\n\nBodo automatically distributes data and computation in Bodo functions by analyzing them for parallelization. However, Bodo does not know how input parameters of Bodo functions are distributed, and similarly how the user wants to handle return values. As such, Bodo assumes that input parameters and return values are *replicated* by default, meaning that every process receives the same input data and returns the same output, as opposed to different data chunks.\n\n<div class=\"alert alert-block alert-warning\"\n<b>Important:</b> The distribution scheme of input parameters and return values determines the distribution scheme for variables inside the Bodo function that depend on them.\n</div>\n\nTo illustrate this effect, let\x27s return the \x60groupby\x60 output from the Bodo function:",
        executionCount := none,
        attachments := none,
        outputs := none },
      -- cell 25
      { cellType := "code",
        source := "%%px --block\nimport pandas as pd\nimport bodo\n\n@bodo.jit\ndef test():\n    df = pd.read_parquet(\"example1.pq\")\n    df2 = df.groupby(\"A\").sum()\n    return df2\n\ndf2 = test()\nprint(df2)",
        executionCount := some 10,
        attachments := none,
        outputs := some [NbOutput.stream "stdout" "[stdout:0] \n                B\nA                \n0   6666663333330\n1   6666663999997\n2   6666664666664\n3   6666665333331\n4   6666665999998\n5   6666666666665\n6   6666667333332\n7   6666667999999\n8   6666668666666\n9   6666669333333\n10  6666670000000\n11  6666670666667\n12  6666671333334\n13  6666672000001\n14  6666672666668\n15  6666673333335\n16  6666674000002\n17  6666674666669\n18  6666675333336\n19  6666676000003\n20  6666656666670\n21  6666657333336\n22  6666658000002\n23  6666658666668\n24  6666659333334\n25  6666660000000\n26  6666660666666\n27  6666661333332\n28  6666661999998\n29  6666662666664\n[stdout:1] \n                B\nA                \n0   6666663333330\n1   6666663999997\n2   6666664666664\n3   6666665333331\n4   6666665999998\n5   6666666666665\n6   6666667333332\n7   6666667999999\n8   6666668666666\n9   6666669333333\n10  6666670000000\n11  6666670666667\n12  6666671333334\n13  6666672000001\n14  6666672666668\n15  6666673333335\n16  6666674000002\n17  6666674666669\n18  6666675333336\n19  6666676000003\n20  6666656666670\n21  6666657333336\n22  6666658000002\n23  6666658666668\n24  6666659333334\n25  6666660000000\n26  6666660666666\n27  6666661333332\n28  6666661999998\n29  6666662666664\n[stdout:2] \n                B\nA                \n0   6666663333330\n1   6666663999997\n2   6666664666664\n3   6666665333331\n4   6666665999998\n5   6666666666665\n6   6666667333332\n7   6666667999999\n8   6666668666666\n9   6666669333333\n10  6666670000000\n11  6666670666667\n12  6666671333334\n13  6666672000001\n14  6666672666668\n15  6666673333335\n16  6666674000002\n17  6666674666669\n18  6666675333336\n19  6666676000003\n20  6666656666670\n21  6666657333336\n22  6666658000002\n23  6666658666668\n24  6666659333334\n25  6666660000000\n26  6666660666666\n27  6666661333332\n28  6666661999998\n29  6666662666664\n[stdout:3] \n                B\nA                \n0   6666663333330\n1   6666663999997\n2   6666664666664\n3   6666665333331\n4   6666665999998\n5   6666666666665\n6   6666667333332\n7   6666667999999\n8   6666668666666\n9   6666669333333\n10  6666670000000\n11  6666670666667\n12  6666671333334\n13  6666672000001\n14  6666672666668\n15  6666673333335\n16  6666674000002\n17  6666674666669\n18  6666675333336\n19  6666676000003\n20  6666656666670\n21  6666657333336\n22  6666658000002\n23  6666658666668\n24  6666659333334\n25  6666660000000\n26  6666660666666\n27  6666661333332\n28  6666661999998\n29  6666662666664\n",
        NbOutput.stream "stderr" "[stderr:0] \n/bodo/bodo/transforms/distributed_analysis.py:233: BodoWarning: No parallelism found for function \x27test\x27. This could be due to unsupported usage. See distributed diagnostics for more information.\n  \"information.\".format(self.func_ir.func_id.func_name)\n"] },
      -- cell 26
      { cellType := "markdown",
        source := "As we can see, \x60df2\x60 has the same data on every process. Furthermore, Bodo warns that it didn\x27t find any parallelism inside the \x60test\x60 function. In this example, every process reads the whole input Parquet file and executes the same sequential program. The reason is that Bodo makes sure all variables dependent on \x60df2\x60 have the same distribution, creating an inverse cascading effect.",
        executionCount := none,
        attachments := none,
        outputs := none },
      -- cell 27
      { cellType := "markdown",
        source := "### \x60distributed\x60 Flag\n\nThe user can tell Bodo what input/output variables should be distributed using the \x60distributed\x60 flag:",
        executionCount := none,
        attachments := none,
        outputs := none },
      -- cell 28
      { cellType := "code",
        source := "%%px --block\n\n@bodo.jit(distributed=[\"df2\"])\ndef test():\n    df = pd.read_parquet(\"example1.pq\")\n    df2 = df.groupby(\"A\").sum()\n    return df2\n\ndf2 = test()\nprint(df2)",
        executionCount := some 11,
        attachments := none,
        outputs := some [NbOutput.stream "stdout" "[stdout:0] \n                B\nA                \n0   6666663333330\n4   6666665999998\n6   6666667333332\n16  6666674000002\n20  6666656666670\n24  6666659333334\n28  6666661999998\n[stdout:1] \n                B\nA                \n1   6666663999997\n7   6666667999999\n8   6666668666666\n11  6666670666667\n12  6666671333334\n13  6666672000001\n15  6666673333335\n18  6666675333336\n[stdout:2] \n                B\nA                \n5   6666666666665\n19  6666676000003\n21  6666657333336\n22  6666658000002\n23  6666658666668\n29  6666662666664\n[stdout:3] \n                B\nA                \n2   6666664666664\n3   6666665333331\n9   6666669333333\n10  6666670000000\n14  6666672666668\n17  6666674666669\n25  6666660000000\n26  6666660666666\n27  6666661333332\n"] },
      -- cell 29
      { cellType := "markdown",
        source := "In this case, the program is fully parallelized and chunks of data are returned to Python on different processes.",
        executionCount := none,
        attachments := none,
        outputs := none },
      -- cell 30
      { cellType := "markdown",
        source := "### Basic benchmarking of the pandas example\nNow let\x27s do some basic benchmarking to observe the effect of Bodo\x27s automatic parallelization. Here we are only scaling up to a few cores, but Bodo can scale the same code to thousands of cores in a cluster.\n\nLet\x27s add timers and run the code again with pandas:",
        executionCount := none,
        attachments := none,
        outputs := none },
      -- cell 31
      { cellType := "code",
        source := "import pandas as pd\nimport time\n\ndef test():\n    df = pd.read_parquet(\"example1.pq\")\n    t0 = time.time()\n    df2 = df.groupby(\"A\").sum()\n    m = df2.B.max()\n    print(\"Compute time:\", time.time() - t0, \"secs\")\n    return m\n\nresult = test()",
        executionCount := some 14,
        attachments := none,
        outputs := some [NbOutput.stream "stdout" "Compute time: 0.7629697322845459 secs\n"] },
      -- cell 32
      { cellType := "markdown",
        source := "Now let\x27s measure Bodo\x27s execution time.",
        executionCount := none,
        attachments := none,
        outputs := none },
      -- cell 33
      { cellType := "code",
        source := "%%px --block\nimport time\n\n@bodo.jit\ndef test():\n    df = pd.read_parquet(\"example1.pq\")\n    t0 = time.time()\n    df2 = df.groupby(\"A\").sum()\n    m = df2.B.max()\n    print(\"Compute time:\", time.time() - t0, \"secs\")\n    return m\n\nresult = test()",
        executionCount := some 17,
        attachments := none,
        outputs := some [NbOutput.stream "stdout" "[stdout:0] Compute time: 0.15030407905578613 secs\n"] },
      -- cell 34
      { cellType := "markdown",
        source := "As we can see, Bodo computes results faster than pandas using parallel computation. The speedup depends on the data and program characteristics, as well as the number of cores used. Usually, we can continue scaling to many more cores as long as the data is large enough.\n\nNote how we included timers inside the Bodo function. This avoids measuring compilation time since Bodo compiles each \x60jit\x60 function the first time it is called. Not measuring compilation time in benchmarking is usually important since:\n\n1. Compilation time is often not significant for large computations in real settings but simple benchmarks are designed to run quickly\n2. Functions can potentially be compiled and cached ahead of execution time\n3. Compilation happens only once but the same function may be called multiple times, leading to inconsistent measurements",
        executionCount := none,
        attachments := none,
        outputs := none },
      -- cell 35
      { cellType := "markdown",
        source := "### Pandas User-Defined Functions\nUser-defined functions (UDFs) offer significant flexibility but have high overhead in Pandas. Bodo can accelerate UDFs significantly, allowing flexibility without performance overheads. Let\x27s modify our example to use UDFs and measure  performance again:",
        executionCount := none,
        attachments := none,
        outputs := none },
      -- cell 36
      { cellType := "code",
        source := "def test():\n    df = pd.read_parquet(\"example1.pq\")\n    t0 = time.time()\n    df2 = df.groupby(\"A\")[\"B\"].agg((lambda a: (a==1).sum(), lambda a: (a==2).sum(), lambda a: (a==3).sum()))\n    m = df2.mean()\n    print(\"Compute time:\", time.time() - t0, \"secs\")\n    return m\n\nresult = test()",
        executionCount := some 16,
        attachments := none,
        outputs := some [NbOutput.stream "stdout" "Compute time: 3.4350690841674805 secs\n"] },
      -- cell 37
      { cellType := "markdown",
        source := "Running this example with Bodo is significantly faster, even on a single core:",
        executionCount := none,
        attachments := none,
        outputs := none },
      -- cell 38
      { cellType := "code",
        source := "import bodo\n\n@bodo.jit\ndef test():\n    df = pd.read_parquet(\"example1.pq\")\n    t0 = time.time()\n    df2 = df.groupby(\"A\")[\"B\"].agg((lambda a: (a==1).sum(), lambda a: (a==2).sum(), lambda a: (a==3).sum()))\n    m = df2.mean()\n    print(\"Compute time:\", time.time() - t0, \"secs\")\n    return m\n\nresult = test()",
        executionCount := some 19,
        attachments := none,
        outputs := some [NbOutput.stream "stdout" "Compute time: 0.7699737200746313 secs\n"] },
      -- cell 39
      { cellType := "markdown",
        source := "Bodo\x27s parallelism improves performance further:",
        executionCount := none,
        attachments := none,
        outputs := none },
      -- cell 40
      { cellType := "code",
        source := "%%px --block\n\n@bodo.jit\ndef test():\n    df = pd.read_parquet(\"example1.pq\")\n    t0 = time.time()\n    df2 = df.groupby(\"A\")[\"B\"].agg((lambda a: (a==1).sum(), lambda a: (a==2).sum(), lambda a: (a==3).sum()))\n    m = df2.mean()\n    print(\"Compute time:\", time.time() - t0, \"secs\")\n    return m\n\nresult = test()",
        executionCount := some 17,
        attachments := none,
        outputs := some [NbOutput.stream "stdout" "[stdout:0] Compute time: 0.2205293399747461 secs\n"] },
      -- cell 41
      { cellType := "markdown",
        source := "## Memory Optimizations in Bodo\nBodo also improves performance by eliminating intermediate array values in computations such as expressions in Pandas and Numpy. The Monte Carlo Pi Estimation example demonstrates this effect:",
        executionCount := none,
        attachments := none,
        outputs := none },
      -- cell 42
      { cellType := "code",
        source := "import numpy as np\n\ndef calc_pi(n):\n    t1 = time.time()\n    x = 2 * np.random.ranf(n) - 1\n    y = 2 * np.random.ranf(n) - 1\n    pi = 4 * np.sum(x**2 + y**2 < 1) / n\n    print(\"Execution time:\", time.time()-t1, \"\\nresult:\", pi)\n\ncalc_pi(2 * 10**8)",
        executionCount := some 20,
        attachments := none,
        outputs := some [NbOutput.stream "stdout" "Execution time: 9.244210243225098 \nresult: 3.14168272\n"] },
      -- cell 43
      { cellType := "markdown",
        source := "Bodo is faster even on a single core since it avoids creating arrays alltogether:",
        executionCount := none,
        attachments := none,
        outputs := none },
      -- cell 44
      { cellType := "code",
        source := "@bodo.jit\ndef calc_pi(n):\n    t1 = time.time()\n    x = 2 * np.random.ranf(n) - 1\n    y = 2 * np.random.ranf(n) - 1\n    pi = 4 * np.sum(x**2 + y**2 < 1) / n\n    print(\"Execution time:\", time.time()-t1, \"\\nresult:\", pi)\n\ncalc_pi(2 * 10**8)",
        executionCount := some 21,
        attachments := none,
        outputs := some [NbOutput.stream "stdout" "Execution time: 2.1929816810879856 \nresult: 3.14158668\n"] },
      -- cell 45
      { cellType := "markdown",
        source := "Data-parallel array computations typically scale well too:",
        executionCount := none,
        attachments := none,
        outputs := none },
      -- cell 46
      { cellType := "code",
        source := "%%px --block\nimport numpy as np\n\n@bodo.jit\ndef calc_pi(n):\n    t1 = time.time()\n    x = 2 * np.random.ranf(n) - 1\n    y = 2 * np.random.ranf(n) - 1\n    pi = 4 * np.sum(x**2 + y**2 < 1) / n\n    print(\"Execution time:\", time.time()-t1, \"\\nresult:\", pi)\n\ncalc_pi(2 * 10**8)",
        executionCount := some 22,
        attachments := none,
        outputs := some [NbOutput.stream "stdout" "[stdout:0] \nExecution time: 0.5737681119935587 \nresult: 3.14162074\n"] },
      -- cell 47
      { cellType := "markdown",
        source := "## Unsupported Pandas/Python Features\n### Supported Pandas Operations\n\nBodo supports a large subset of Pandas APIs as listed [here](http://docs.bodo.ai/latest/source/pandas.html). Moreover, dataframe schemas (column names and types) should be stable in operations. For example, key column names to \x60group\x60 have to be constant for output type to be stable. This example demonstrates the issue:\n",
        executionCount := none,
        attachments := none,
        outputs := none },
      -- cell 48
      { cellType := "code",
        source := "import bodo\n\n@bodo.jit\ndef f(a, i):\n    column_list = a[:i]  # some computation that cannot be inferred statically\n    df = pd.DataFrame(\x7b\"A\": [1, 2, 1], \"B\": [4, 5, 6]\x7d)\n    return df.groupby(column_list).sum()\n\na = [\"A\", \"B\"]\ni = 1\nf(a, i)",
        executionCount := some 25,
        attachments := none,
        outputs := some [NbOutput.error "BodoError" "groupby(): \x27by\x27 parameter only supports a constant column label or column labels.\n\nFile \"<ipython-input-25-835749d04e4e>\", line 5:\ndef f(a, i):\n    <source elided>\n    df = pd.DataFrame(\x7b\"A\": [1, 2, 1], \"B\": [4, 5, 6]\x7d)\n    return df.groupby(column_list).sum()\n    ^\n" ["\u001b[0;31m---------------------------------------------------------------------------\u001b[0m", "\u001b[0;31mBodoError\u001b[0m                                 Traceback (most recent call last)", "\u001b[0;32m<ipython-input-25-835749d04e4e>\u001b[0m in \u001b[0;36m<module>\u001b[0;34m\u001b[0m\n\u001b[1;32m      7\u001b[0m \u001b[0ma\u001b[0m \u001b[0;34m=\u001b[0m \u001b[0;34m[\u001b[0m\u001b[0;34m\"A\"\u001b[0m\u001b[0;34m,\u001b[0m \u001b[0;34m\"B\"\u001b[0m\u001b[0;34m]\u001b[0m\u001b[0;34m\u001b[0m\u001b[0;34m\u001b[0m\u001b[0m\n\u001b[1;32m      8\u001b[0m \u001b[0mi\u001b[0m \u001b[0;34m=\u001b[0m \u001b[0;36m1\u001b[0m\u001b[0;34m\u001b[0m\u001b[0;34m\u001b[0m\u001b[0m\n\u001b[0;32m----> 9\u001b[0;31m \u001b[0mf\u001b[0m\u001b[0;34m(\u001b[0m\u001b[0ma\u001b[0m\u001b[0;34m,\u001b[0m \u001b[0mi\u001b[0m\u001b[0;34m)\u001b[0m\u001b[0;34m\u001b[0m\u001b[0;34m\u001b[0m\u001b[0m\n\u001b[0m", "\u001b[0;32m~/dev/bodo/bodo/numba_compat.py\u001b[0m in \u001b[0;36m_compile_for_args\u001b[0;34m(***failed resolving arguments***)\u001b[0m\n\u001b[1;32m    841\u001b[0m         \u001b[0;32mdel\u001b[0m \u001b[0margs\u001b[0m\u001b[0;34m\u001b[0m\u001b[0;34m\u001b[0m\u001b[0m\n\u001b[1;32m    842\u001b[0m         \u001b[0;32mif\u001b[0m \u001b[0merror\u001b[0m\u001b[0;34m:\u001b[0m\u001b[0;34m\u001b[0m\u001b[0;34m\u001b[0m\u001b[0m\n\u001b[0;32m--> 843\u001b[0;31m             \u001b[0;32mraise\u001b[0m \u001b[0merror\u001b[0m\u001b[0;34m\u001b[0m\u001b[0;34m\u001b[0m\u001b[0m\n\u001b[0m\u001b[1;32m    844\u001b[0m \u001b[0;34m\u001b[0m\u001b[0m\n\u001b[1;32m    845\u001b[0m \u001b[0;34m\u001b[0m\u001b[0m\n", "\u001b[0;31mBodoError\u001b[0m: groupby(): \x27by\x27 parameter only supports a constant column label or column labels.\n\nFile \"<ipython-input-25-835749d04e4e>\", line 5:\ndef f(a, i):\n    <source elided>\n    df = pd.DataFrame(\x7b\"A\": [1, 2, 1], \"B\": [4, 5, 6]\x7d)\n    return df.groupby(column_list).sum()\n    ^\n"]] },
      -- cell 49
      { cellType := "markdown",
        source := "The code can most often be refactored to compute the key list in regular Python and pass as argument to Bodo:",
        executionCount := none,
        attachments := none,
        outputs := none },
      -- cell 50
      { cellType := "code",
        source := "@bodo.jit\ndef f(column_list):\n    df = pd.DataFrame(\x7b\"A\": [1, 2, 1], \"B\": [4, 5, 6]\x7d)\n    return df.groupby(column_list).sum()\n\na = [\"A\", \"B\"]\ni = 1\ncolumn_list = a[:i]\nf(column_list)",
        executionCount := some 26,
        attachments := none,
        outputs := some [NbOutput.stream "stderr" "/bodo/bodo/transforms/distributed_analysis.py:233: BodoWarning: No parallelism found for function \x27f\x27. This could be due to unsupported usage. See distributed diagnostics for more information.\n  \"information.\".format(self.func_ir.func_id.func_name)\n",
        NbOutput.executeResult [("text/html", "<div>\n<style scoped>\n    .dataframe tbody tr th:only-of-type \x7b\n        vertical-align: middle;\n    \x7d\n\n    .dataframe tbody tr th \x7b\n        vertical-align: top;\n    \x7d\n\n    .dataframe thead th \x7b\n        text-align: right;\n    \x7d\n</style>\n<table border=\"1\" class=\"dataframe\">\n  <thead>\n    <tr style=\"text-align: right;\">\n      <th></th>\n      <th>B</th>\n    </tr>\n    <tr>\n      <th>A</th>\n      <th></th>\n    </tr>\n  </thead>\n  <tbody>\n    <tr>\n      <th>1</th>\n      <td>10</td>\n    </tr>\n    <tr>\n      <th>2</th>\n      <td>5</td>\n    </tr>\n  </tbody>\n</table>\n</div>"), ("text/plain", "    B\nA    \n1  10\n2   5")] 26] },
      -- cell 51
      { cellType := "markdown",
        source := "### Supported Python Operations\n\nBodo relies on Numba for supporting basic Python features. Therefore, Python constructs that are not supported by Numba (see Numba documentation [here](http://numba.pydata.org/numba-doc/latest/reference/pysupported.html)) should be avoided in Bodo programs. For example:\n\n- exceptions: \x60try\x60 .. \x60except\x60, \x60raise\x60\n- context manager: \x60with\x60\n- \x60list\x60, \x60set\x60, \x60dict\x60 and \x60generator\x60 comprehensions\n- \x60async\x60 features\n- class definition: \x60class\x60\n- string formatting, e.g. \u201cA: \x7b\x7d\u201d.format(a)\n- List containing values of heterogeneous type\n  * myList = [1, \"a\", 0.1]\n- Dictionary containing values of heterogeneous type\n  * myDict = \x7b\"A\": 1, \"B\": \"a\", \"C\": 0.1\x7d",
        executionCount := none,
        attachments := none,
        outputs := none },
      -- cell 52
      { cellType := "markdown",
        source := "### Parallel Data Structures\n\nBodo can parallelize Pandas DataFrame and Series data structures, as well as Numpy arrays. However, collections like lists, sets and dictionaries cannot be parallelized yet.",
        executionCount := none,
        attachments := none,
        outputs := none }
    ] }

/-- The full text of README.md. -/
def readmeText : String :=
  "# Bodo Tutorial\nWelcome to Bodo Tutorials!\n\nFirst make sure you have Bodo [installed](http://docs.bodo.ai/latest/source/install.html).\n\nTo view tutorials with Jupyter Notebook, install \x60jupyter\x60 and \x60ipyparallel\x60 in the same enviroment where Bodo is installed:\n\n    # if you followed the above installation instructions, \n    # make sure you are in the same enviroment: source activate Bodo \n    conda install jupyter ipyparallel -c conda-forge\n\nCreate an MPI profile for IPython:\n\n    ipython profile create --parallel --profile=mpi\n\nEdit the \x60~/.ipython/profile_mpi/ipython_config.py\x60 file\nand add the following line:\n\n    c.IPClusterEngines.engine_launcher_class = \x27MPIEngineSetLauncher\x27\n\nNow go to \x60Bodo-tutorial\x60 and start the Jupyter Notebook:\n\n    cd Bodo-tutorial\n    jupyter notebook\n\nThen go to *IPython Clusters* tab. Select the\nnumber of engines (i.e., cores) you\x27d like to use and click *Start* next to the\n*mpi* profile. Alternatively, you can use \x60ipcluster start -n 4 --profile=mpi\x60\nin a terminal to start the engines (this can take several seconds).\n\nStart with [\x60bodo_getting_started.ipynb\x60](https://github.com/Bodo-inc/Bodo-tutorial/blob/master/bodo_getting_started.ipynb) \nand then move on to [\x60bodo_tutorial.ipynb\x60](https://github.com/Bodo-inc/Bodo-tutorial/blob/master/bodo_tutorial.ipynb).\n\n_________________________\nMore documentation can be found at http://docs.bodo.ai.\n\nMore Jupyter Notebook setup instructions for Bodo can be found [here](http://docs.bodo.ai/latest/source/jupyter.html).\n"

/-- The 30 (A, B) rows printed by cell 22 (pandas readback of example1-df2.pq). -/
def pairsCell22 : List (Nat × Nat) :=
  [(0, 6666663333330), (4, 6666665999998), (6, 6666667333332), (16, 6666674000002), (20, 6666656666670), (24, 6666659333334), (28, 6666661999998), (1, 6666663999997), (7, 6666667999999), (8, 6666668666666), (11, 6666670666667), (12, 6666671333334), (13, 6666672000001), (15, 6666673333335), (18, 6666675333336), (5, 6666666666665), (19, 6666676000003), (21, 6666657333336), (22, 6666658000002), (23, 6666658666668), (29, 6666662666664), (2, 6666664666664), (3, 6666665333331), (9, 6666669333333), (10, 6666670000000), (14, 6666672666668), (17, 6666674666669), (25, 6666660000000), (26, 6666660666666), (27, 6666661333332)]

/-- The (A, B) rows printed by each of the 4 processes in cell 25 (replicated return). -/
def pairsCell25 : Nat → List (Nat × Nat)
  | 0 => [(0, 6666663333330), (1, 6666663999997), (2, 6666664666664), (3, 6666665333331), (4, 6666665999998), (5, 6666666666665), (6, 6666667333332), (7, 6666667999999), (8, 6666668666666), (9, 6666669333333), (10, 6666670000000), (11, 6666670666667), (12, 6666671333334), (13, 6666672000001), (14, 6666672666668), (15, 6666673333335), (16, 6666674000002), (17, 6666674666669), (18, 6666675333336), (19, 6666676000003), (20, 6666656666670), (21, 6666657333336), (22, 6666658000002), (23, 6666658666668), (24, 6666659333334), (25, 6666660000000), (26, 6666660666666), (27, 6666661333332), (28, 6666661999998), (29, 6666662666664)]
  | 1 => [(0, 6666663333330), (1, 6666663999997), (2, 6666664666664), (3, 6666665333331), (4, 6666665999998), (5, 6666666666665), (6, 6666667333332), (7, 6666667999999), (8, 6666668666666), (9, 6666669333333), (10, 6666670000000), (11, 6666670666667), (12, 6666671333334), (13, 6666672000001), (14, 6666672666668), (15, 6666673333335), (16, 6666674000002), (17, 6666674666669), (18, 6666675333336), (19, 6666676000003), (20, 6666656666670), (21, 6666657333336), (22, 6666658000002), (23, 6666658666668), (24, 6666659333334), (25, 6666660000000), (26, 6666660666666), (27, 6666661333332), (28, 6666661999998), (29, 6666662666664)]
  | 2 => [(0, 6666663333330), (1, 6666663999997), (2, 6666664666664), (3, 6666665333331), (4, 6666665999998), (5, 6666666666665), (6, 6666667333332), (7, 6666667999999), (8, 6666668666666), (9, 6666669333333), (10, 6666670000000), (11, 6666670666667), (12, 6666671333334), (13, 6666672000001), (14, 6666672666668), (15, 6666673333335), (16, 6666674000002), (17, 6666674666669), (18, 6666675333336), (19, 6666676000003), (20, 6666656666670), (21, 6666657333336), (22, 6666658000002), (23, 6666658666668), (24, 6666659333334), (25, 6666660000000), (26, 6666660666666), (27, 6666661333332), (28, 6666661999998), (29, 6666662666664)]
  | 3 => [(0, 6666663333330), (1, 6666663999997), (2, 6666664666664), (3, 6666665333331), (4, 6666665999998), (5, 6666666666665), (6, 6666667333332), (7, 6666667999999), (8, 6666668666666), (9, 6666669333333), (10, 6666670000000), (11, 6666670666667), (12, 6666671333334), (13, 6666672000001), (14, 6666672666668), (15, 6666673333335), (16, 6666674000002), (17, 6666674666669), (18, 6666675333336), (19, 6666676000003), (20, 6666656666670), (21, 6666657333336), (22, 6666658000002), (23, 6666658666668), (24, 6666659333334), (25, 6666660000000), (26, 6666660666666), (27, 6666661333332), (28, 6666661999998), (29, 6666662666664)]
  | _ => []

/-- The (A, B) rows printed by each of the 4 processes in cell 28 (distributed return). -/
def pairsCell28 : Nat → List (Nat × Nat)
  | 0 => [(0, 6666663333330), (4, 6666665999998), (6, 6666667333332), (16, 6666674000002), (20, 6666656666670), (24, 6666659333334), (28, 6666661999998)]
  | 1 => [(1, 6666663999997), (7, 6666667999999), (8, 6666668666666), (11, 6666670666667), (12, 6666671333334), (13, 6666672000001), (15, 6666673333335), (18, 6666675333336)]
  | 2 => [(5, 6666666666665), (19, 6666676000003), (21, 6666657333336), (22, 6666658000002), (23, 6666658666668), (29, 6666662666664)]
  | 3 => [(2, 6666664666664), (3, 6666665333331), (9, 6666669333333), (10, 6666670000000), (14, 6666672666668), (17, 6666674666669), (25, 6666660000000), (26, 6666660666666), (27, 6666661333332)]
  | _ => []

/-- The default cell used for out-of-range indexing. -/
def emptyCell : NbCell :=
  { cellType := "", source := "", executionCount := none,
    attachments := none, outputs := none }

/-- The i-th cell of the notebook. -/
def nbCell (i : Nat) : NbCell :=
  bodoGettingStarted.cells.getD i emptyCell

/-- The outputs list of a cell (empty when the cell has no outputs key). -/
def cellOutputs (c : NbCell) : List NbOutput :=
  c.outputs.getD []

/-- Whether a cell is a code cell. -/
def isCodeCell (c : NbCell) : Bool :=
  c.cellType == "code"

/-- All captured outputs of all cells, in notebook order. -/
def allNbOutputs : List NbOutput :=
  (bodoGettingStarted.cells.map cellOutputs).flatten

/-- Schema check that the embedded document is a well-formed nbformat-4
notebook: version 4, and every cell is either a markdown cell (no outputs
and no execution count) or a code cell (with outputs and execution count
present). -/
def notebookSchemaOk (nb : Notebook) : Bool :=
  nb.nbformat == 4 &&
  nb.cells.all (fun c =>
    (c.cellType == "markdown" && c.outputs == none && c.executionCount == none)
    || (c.cellType == "code" && c.outputs.isSome && c.executionCount.isSome))

/-
A conservative model of Python surface syntax, covering the statement and
expression forms used by the code cells of the notebook.  The tokenizer and
recursive-descent grammar below accept only programs that are valid Python
(a strict subset of the language: imports, assignments to names, expression
statements, decorated function definitions with return, and expressions
built from names, numbers, strings, attribute access, calls with positional
and keyword arguments, subscripts and slices, arithmetic/comparison
operators, lambdas, tuple/list/dict displays).  A source accepted by
pyParseModule is syntactically valid Python; the tokenizer likewise mirrors
the lexical rules of Python for the characters that occur (a logical line can
never begin with the % operator, so IPython %%-cell-magic lines are
rejected, exactly as the CPython parser rejects them).
-/

/-- Tokens: identifiers, number literals, string literals (content between
the quotes), operator/punctuation symbols, logical newlines, and the
indentation marker opening each logical line. -/
inductive PyTok where
  | ident (s : String)
  | num (s : String)
  | str (s : String)
  | op (s : String)
  | nl
  | ind (n : Nat)
deriving DecidableEq

/-- Characters that may continue a Python identifier. -/
def pyIdentChar (c : Char) : Bool :=
  c.isAlpha || c.isDigit || c == '_'

/-- Characters that may start a Python identifier. -/
def pyIdentStart (c : Char) : Bool :=
  c.isAlpha || c == '_'

/-- Scan a Python string literal after its opening quote q, up to the
closing quote; a backslash escapes the following character; a physical
newline inside a (single-quoted) string literal is a syntax error. -/
def pyStrScan (q : Char) : List Char → Option (List Char × List Char)
  | [] => none
  | '\\' :: e :: cs =>
      match pyStrScan q cs with
      | some (acc, rest) => some ('\\' :: e :: acc, rest)
      | none => none
  | c :: cs =>
      if c == q then some ([], cs)
      else if c == '\n' then none
      else
        match pyStrScan q cs with
        | some (acc, rest) => some (c :: acc, rest)
        | none => none

/-- No two consecutive underscores (Python allows single underscores
between digits of a numeric literal). -/
def pyNoDoubleUnd : List Char → Bool
  | '_' :: '_' :: _ => false
  | _ :: cs => pyNoDoubleUnd cs
  | [] => true

/-- A valid integer literal: digits with single interior underscores. -/
def pyNumOk (cs : List Char) : Bool :=
  cs.all (fun c => c.isDigit || c == '_')
    && (match cs.head? with | some c => c.isDigit | none => false)
    && (match cs.getLast? with | some c => c.isDigit | none => false)
    && pyNoDoubleUnd cs

/-- Drop characters up to (but not including) the next physical newline:
the extent of a # comment. -/
def pyDropLine : List Char → List Char
  | [] => []
  | c :: cs => if c == '\n' then c :: cs else pyDropLine cs

/-- The tokenizer.  depth is the open-bracket nesting depth (newlines
inside brackets are implicit line joins); lineStart marks the start of a
physical line outside brackets, where indentation is measured and blank or
comment-only lines are skipped.  Fails on characters outside the modelled
lexical grammar, on unbalanced brackets and on malformed literals. -/
def pyToks : Nat → List Char → Nat → Bool → Option (List PyTok)
  | 0, _, _, _ => none
  | _+1, [], depth, lineStart =>
      if depth == 0 then (if lineStart then some [] else some [PyTok.nl]) else none
  | f+1, cs@(c :: cs'), depth, lineStart =>
      if lineStart then
        let sp := cs.takeWhile (· == ' ')
        let rest := cs.dropWhile (· == ' ')
        match rest with
        | [] => some []
        | '\n' :: r => pyToks f r 0 true
        | '#' :: r => pyToks f (pyDropLine r) 0 true
        | _ => (pyToks f rest 0 false).map (PyTok.ind sp.length :: ·)
      else
        match cs with
        | '*' :: '*' :: r => (pyToks f r depth false).map (PyTok.op "**" :: ·)
        | '=' :: '=' :: r => (pyToks f r depth false).map (PyTok.op "==" :: ·)
        | _ =>
          if c == ' ' then pyToks f cs' depth false
          else if c == '\n' then
            if depth == 0 then (pyToks f cs' 0 true).map (PyTok.nl :: ·)
            else pyToks f cs' depth false
          else if c == '#' then pyToks f (pyDropLine cs') depth false
          else if c == '(' || c == '[' || c == Char.ofNat 123 then
            (pyToks f cs' (depth + 1) false).map (PyTok.op (String.mk [c]) :: ·)
          else if c == ')' || c == ']' || c == Char.ofNat 125 then
            if depth == 0 then none
            else (pyToks f cs' (depth - 1) false).map (PyTok.op (String.mk [c]) :: ·)
          else if c == Char.ofNat 34 || c == Char.ofNat 39 then
            match pyStrScan c cs' with
            | some (acc, rest) =>
                (pyToks f rest depth false).map (PyTok.str (String.mk acc) :: ·)
            | none => none
          else if pyIdentStart c then
            let w := cs.takeWhile pyIdentChar
            (pyToks f (cs.dropWhile pyIdentChar) depth false).map
              (PyTok.ident (String.mk w) :: ·)
          else if c.isDigit then
            let w := cs.takeWhile (fun x => x.isDigit || x == '_')
            if pyNumOk w then
              (pyToks f (cs.dropWhile (fun x => x.isDigit || x == '_')) depth false).map
                (PyTok.num (String.mk w) :: ·)
            else none
          else if [',', ':', '.', '=', '<', '+', '-', '*', '/', '%', '@'].contains c then
            (pyToks f cs' depth false).map (PyTok.op (String.mk [c]) :: ·)
          else none

/-- The reserved keywords of Python: never identifiers. -/
def pyKw : List String :=
  ["False", "None", "True", "and", "as", "assert", "async", "await",
   "break", "class", "continue", "def", "del", "elif", "else", "except",
   "finally", "for", "from", "global", "if", "import", "in", "is",
   "lambda", "nonlocal", "not", "or", "pass", "raise", "return", "try",
   "while", "with", "yield"]

/-- Python expressions (the forms occurring in the notebook). -/
inductive PyExpr where
  | name (s : String)
  | numLit (s : String)
  | strLit (s : String)
  | attr (e : PyExpr) (field : String)
  | call (f : PyExpr) (args : List PyExpr) (kwargs : List (String × PyExpr))
  | subscript (e : PyExpr) (index : PyExpr)
  | sliceSub (e : PyExpr) (lo hi : Option PyExpr)
  | binop (o : String) (a b : PyExpr)
  | lam (param : String) (body : PyExpr)
  | tuple (elts : List PyExpr)
  | listD (elts : List PyExpr)
  | dictD (entries : List (PyExpr × PyExpr))

/-- Python statements (the forms occurring in the notebook). -/
inductive PyStmt where
  | imprt (modname : String) (alia : Option String)
  | assign (target : String) (value : PyExpr)
  | exprStmt (e : PyExpr)
  | ret (e : PyExpr)
  | funcdef (decorators : List PyExpr) (name : String)
      (params : List String) (body : List PyStmt)

mutual

/-- Expression: a lambda or a comparison. -/
def pExprF : Nat → List PyTok → Option (PyExpr × List PyTok)
  | 0, _ => none
  | f+1, PyTok.ident "lambda" :: PyTok.ident p :: PyTok.op ":" :: ts =>
      if pyKw.contains p then none
      else
        match pExprF f ts with
        | some (b, ts2) => some (PyExpr.lam p b, ts2)
        | none => none
  | f+1, ts => pCmpF f ts

/-- Comparison: additive, optionally followed by one == or < comparison. -/
def pCmpF : Nat → List PyTok → Option (PyExpr × List PyTok)
  | 0, _ => none
  | f+1, ts =>
      match pAddF f ts with
      | some (a, PyTok.op "==" :: ts2) =>
          match pAddF f ts2 with
          | some (b, ts3) => some (PyExpr.binop "==" a b, ts3)
          | none => none
      | some (a, PyTok.op "<" :: ts2) =>
          match pAddF f ts2 with
          | some (b, ts3) => some (PyExpr.binop "<" a b, ts3)
          | none => none
      | r => r

/-- Additive level, left associative. -/
def pAddF : Nat → List PyTok → Option (PyExpr × List PyTok)
  | 0, _ => none
  | f+1, ts =>
      match pMulF f ts with
      | some (a, ts2) => pAddL f a ts2
      | none => none

def pAddL : Nat → PyExpr → List PyTok → Option (PyExpr × List PyTok)
  | 0, _, _ => none
  | f+1, a, PyTok.op "+" :: ts =>
      match pMulF f ts with
      | some (b, ts2) => pAddL f (PyExpr.binop "+" a b) ts2
      | none => none
  | f+1, a, PyTok.op "-" :: ts =>
      match pMulF f ts with
      | some (b, ts2) => pAddL f (PyExpr.binop "-" a b) ts2
      | none => none
  | _+1, a, ts => some (a, ts)

/-- Multiplicative level, left associative. -/
def pMulF : Nat → List PyTok → Option (PyExpr × List PyTok)
  | 0, _ => none
  | f+1, ts =>
      match pPowF f ts with
      | some (a, ts2) => pMulL f a ts2
      | none => none

def pMulL : Nat → PyExpr → List PyTok → Option (PyExpr × List PyTok)
  | 0, _, _ => none
  | f+1, a, PyTok.op "*" :: ts =>
      match pPowF f ts with
      | some (b, ts2) => pMulL f (PyExpr.binop "*" a b) ts2
      | none => none
  | f+1, a, PyTok.op "/" :: ts =>
      match pPowF f ts with
      | some (b, ts2) => pMulL f (PyExpr.binop "/" a b) ts2
      | none => none
  | f+1, a, PyTok.op "%" :: ts =>
      match pPowF f ts with
      | some (b, ts2) => pMulL f (PyExpr.binop "%" a b) ts2
      | none => none
  | _+1, a, ts => some (a, ts)

/-- Power level, right associative. -/
def pPowF : Nat → List PyTok → Option (PyExpr × List PyTok)
  | 0, _ => none
  | f+1, ts =>
      match pPostF f ts with
      | some (a, PyTok.op "**" :: ts2) =>
          match pPowF f ts2 with
          | some (b, ts3) => some (PyExpr.binop "**" a b, ts3)
          | none => none
      | r => r

/-- Postfix level: an atom followed by trailers. -/
def pPostF : Nat → List PyTok → Option (PyExpr × List PyTok)
  | 0, _ => none
  | f+1, ts =>
      match pAtomF f ts with
      | some (a, ts2) => pTrail f a ts2
      | none => none

/-- Trailers: attribute access, call, subscript. -/
def pTrail : Nat → PyExpr → List PyTok → Option (PyExpr × List PyTok)
  | 0, _, _ => none
  | f+1, a, PyTok.op "." :: PyTok.ident fld :: ts =>
      if pyKw.contains fld then none else pTrail f (PyExpr.attr a fld) ts
  | f+1, a, PyTok.op "(" :: ts =>
      match pArgsF f ts with
      | some ((args, kwargs), ts2) => pTrail f (PyExpr.call a args kwargs) ts2
      | none => none
  | f+1, a, PyTok.op "[" :: ts =>
      match pSubF f a ts with
      | some (e, ts2) => pTrail f e ts2
      | none => none
  | _+1, a, ts => some (a, ts)

/-- Call arguments after the opening paren, through the closing paren:
positional arguments, then keyword arguments. -/
def pArgsF : Nat → List PyTok →
    Option ((List PyExpr × List (String × PyExpr)) × List PyTok)
  | 0, _ => none
  | _+1, PyTok.op ")" :: ts => some (([], []), ts)
  | f+1, ts => pArgsPos f ts

def pArgsPos : Nat → List PyTok →
    Option ((List PyExpr × List (String × PyExpr)) × List PyTok)
  | 0, _ => none
  | f+1, PyTok.ident k :: PyTok.op "=" :: ts =>
      if pyKw.contains k then none
      else
        match pArgsKw f k ts with
        | some (kws, ts2) => some (([], kws), ts2)
        | none => none
  | f+1, ts =>
      match pExprF f ts with
      | some (e, PyTok.op "," :: ts2) =>
          match pArgsPos f ts2 with
          | some ((args, kws), ts3) => some ((e :: args, kws), ts3)
          | none => none
      | some (e, PyTok.op ")" :: ts2) => some (([e], []), ts2)
      | _ => none

/-- Keyword arguments: k is the name whose = has been consumed. -/
def pArgsKw : Nat → String → List PyTok →
    Option (List (String × PyExpr) × List PyTok)
  | 0, _, _ => none
  | f+1, k, ts =>
      match pExprF f ts with
      | some (v, PyTok.op ")" :: ts2) => some ([(k, v)], ts2)
      | some (v, PyTok.op "," :: PyTok.ident k2 :: PyTok.op "=" :: ts2) =>
          if pyKw.contains k2 then none
          else
            match pArgsKw f k2 ts2 with
            | some (kws, ts3) => some ((k, v) :: kws, ts3)
            | none => none
      | _ => none

/-- Subscript or slice trailer for base a, after the opening bracket. -/
def pSubF : Nat → PyExpr → List PyTok → Option (PyExpr × List PyTok)
  | 0, _, _ => none
  | _+1, a, PyTok.op ":" :: PyTok.op "]" :: ts =>
      some (PyExpr.sliceSub a none none, ts)
  | f+1, a, PyTok.op ":" :: ts =>
      match pExprF f ts with
      | some (hi, PyTok.op "]" :: ts2) => some (PyExpr.sliceSub a none (some hi), ts2)
      | _ => none
  | f+1, a, ts =>
      match pExprF f ts with
      | some (e, PyTok.op "]" :: ts2) => some (PyExpr.subscript a e, ts2)
      | some (e, PyTok.op ":" :: PyTok.op "]" :: ts2) =>
          some (PyExpr.sliceSub a (some e) none, ts2)
      | some (e, PyTok.op ":" :: ts2) =>
          match pExprF f ts2 with
          | some (hi, PyTok.op "]" :: ts3) =>
              some (PyExpr.sliceSub a (some e) (some hi), ts3)
          | _ => none
      | _ => none

/-- Comma-separated expressions terminated by the given closer (non-empty). -/
def pElems : Nat → String → List PyTok → Option (List PyExpr × List PyTok)
  | 0, _, _ => none
  | f+1, closer, ts =>
      match pExprF f ts with
      | some (e, PyTok.op c :: ts2) =>
          if c == closer then some ([e], ts2)
          else if c == "," then
            match pElems f closer ts2 with
            | some (es, ts3) => some (e :: es, ts3)
            | none => none
          else none
      | _ => none

/-- Dict entries (key : value) terminated by the closing brace (non-empty). -/
def pDictEs : Nat → List PyTok → Option (List (PyExpr × PyExpr) × List PyTok)
  | 0, _ => none
  | f+1, ts =>
      match pExprF f ts with
      | some (k, PyTok.op ":" :: ts2) =>
          match pExprF f ts2 with
          | some (v, PyTok.op "\x7d" :: ts3) => some ([(k, v)], ts3)
          | some (v, PyTok.op "," :: ts3) =>
              match pDictEs f ts3 with
              | some (es, ts4) => some ((k, v) :: es, ts4)
              | none => none
          | _ => none
      | _ => none

/-- Atoms: names (never keywords), literals, parenthesised expressions and
tuple displays, list displays, dict displays. -/
def pAtomF : Nat → List PyTok → Option (PyExpr × List PyTok)
  | 0, _ => none
  | _+1, PyTok.ident s :: ts =>
      if pyKw.contains s then none else some (PyExpr.name s, ts)
  | _+1, PyTok.num s :: ts => some (PyExpr.numLit s, ts)
  | _+1, PyTok.str s :: ts => some (PyExpr.strLit s, ts)
  | f+1, PyTok.op "(" :: ts =>
      match pElems f ")" ts with
      | some ([e], ts2) => some (e, ts2)
      | some (es, ts2) => some (PyExpr.tuple es, ts2)
      | none => none
  | _+1, PyTok.op "[" :: PyTok.op "]" :: ts => some (PyExpr.listD [], ts)
  | f+1, PyTok.op "[" :: ts =>
      match pElems f "]" ts with
      | some (es, ts2) => some (PyExpr.listD es, ts2)
      | none => none
  | _+1, PyTok.op "\x7b" :: PyTok.op "\x7d" :: ts => some (PyExpr.dictD [], ts)
  | f+1, PyTok.op "\x7b" :: ts =>
      match pDictEs f ts with
      | some (es, ts2) => some (PyExpr.dictD es, ts2)
      | none => none
  | _, _ => none

end

/-- Whether pat is a prefix of l. -/
def charsAhead : List Char → List Char → Bool
  | [], _ => true
  | _ :: _, [] => false
  | p :: ps, c :: cs => p == c && charsAhead ps cs

/-- Whether pat occurs as a contiguous sublist of l. -/
def charsSub (pat : List Char) : List Char → Bool
  | [] => pat.isEmpty
  | c :: cs => charsAhead pat (c :: cs) || charsSub pat cs

/-- Whether pat occurs as a substring of s. -/
def strHas (s pat : String) : Bool :=
  charsSub pat.data s.data

/-- Whether pre is a prefix of s. -/
def strStarts (s pre : String) : Bool :=
  charsAhead pre.data s.data

/-- Whether suf is a suffix of s. -/
def strEnds (s suf : String) : Bool :=
  charsAhead suf.data (s.data.drop (s.data.length - suf.data.length))

/-- Drop the first physical line (through its newline). -/
def dropThroughNl : List Char → List Char
  | [] => []
  | c :: cs => if c == '\n' then cs else dropThroughNl cs

/-- Fuel bound for the expression grammar on a token list. -/
def exprFuel (ts : List PyTok) : Nat :=
  16 * ts.length + 16

/-- Function parameter list after the opening paren, through the closing
paren: zero or more names. -/
def pParams : List PyTok → Option (List String × List PyTok)
  | PyTok.op ")" :: ts => some ([], ts)
  | PyTok.ident p :: ts =>
      if pyKw.contains p then none
      else
        match ts with
        | PyTok.op ")" :: rest => some ([p], rest)
        | PyTok.op "," :: rest =>
            match pParams rest with
            | some (ps, r2) => some (p :: ps, r2)
            | none => none
        | _ => none
  | _ => none

mutual

/-- One statement at indentation level curInd, given the tokens after that
line, after its indentation marker.  inFunc is true inside a function body: return
is only legal there, and (conservatively) import, def and decorators are
only accepted at module level. -/
def pStmtF : Nat → Bool → Nat → List PyTok → Option (PyStmt × List PyTok)
  | 0, _, _, _ => none
  | f+1, inFunc, curInd, ts =>
      match ts with
      | PyTok.ident "import" :: PyTok.ident m :: rest =>
          if inFunc || pyKw.contains m then none
          else
            match rest with
            | PyTok.ident "as" :: PyTok.ident a :: PyTok.nl :: ts2 =>
                if pyKw.contains a then none
                else some (PyStmt.imprt m (some a), ts2)
            | PyTok.nl :: ts2 => some (PyStmt.imprt m none, ts2)
            | _ => none
      | PyTok.ident "return" :: rest =>
          if inFunc then
            match pExprF (exprFuel rest) rest with
            | some (e, PyTok.nl :: ts2) => some (PyStmt.ret e, ts2)
            | _ => none
          else none
      | PyTok.op "@" :: rest =>
          if inFunc then none
          else
            match pPostF (exprFuel rest) rest with
            | some (d, PyTok.nl :: PyTok.ind k :: ts2) =>
                if k == curInd then
                  match pStmtF f inFunc curInd ts2 with
                  | some (PyStmt.funcdef ds n ps b, ts3) =>
                      some (PyStmt.funcdef (d :: ds) n ps b, ts3)
                  | _ => none
                else none
            | _ => none
      | PyTok.ident "def" :: PyTok.ident nm :: PyTok.op "(" :: rest =>
          if inFunc || pyKw.contains nm then none
          else
            match pParams rest with
            | some (ps, PyTok.op ":" :: PyTok.nl :: ts2) =>
                match ts2 with
                | PyTok.ind m :: _ =>
                    if curInd < m then
                      match pBlockF f true m ts2 with
                      | some (body, ts3) =>
                          if body.isEmpty then none
                          else some (PyStmt.funcdef [] nm ps body, ts3)
                      | none => none
                    else none
                | _ => none
            | _ => none
      | PyTok.ident s :: PyTok.op "=" :: rest =>
          if pyKw.contains s then none
          else
            match pExprF (exprFuel rest) rest with
            | some (e, PyTok.nl :: ts2) => some (PyStmt.assign s e, ts2)
            | _ => none
      | _ =>
          match pExprF (exprFuel ts) ts with
          | some (e, PyTok.nl :: ts2) => some (PyStmt.exprStmt e, ts2)
          | _ => none

/-- A maximal sequence of statements whose lines sit exactly at
indentation level ind; stops (without consuming) at a line with any other
indentation, which must then be handled by an enclosing block. -/
def pBlockF : Nat → Bool → Nat → List PyTok → Option (List PyStmt × List PyTok)
  | 0, _, _, _ => none
  | f+1, inFunc, ind, ts =>
      match ts with
      | PyTok.ind k :: rest =>
          if k == ind then
            match pStmtF f inFunc ind rest with
            | some (s, ts2) =>
                match pBlockF f inFunc ind ts2 with
                | some (ss, ts3) => some (s :: ss, ts3)
                | none => none
            | none => none
          else some ([], ts)
      | [] => some ([], [])
      | _ => none

end

/-- Parse a complete Python module: tokenize, parse statements at
indentation 0 and require every token to be consumed. -/
def pyParseModule (s : String) : Option (List PyStmt) :=
  match pyToks (4 * s.length + 16) s.data 0 true with
  | some ts =>
      match pBlockF (2 * ts.length + 16) false 0 ts with
      | some (ss, []) => some ss
      | _ => none
  | none => none

/-- Strip a leading IPython %%-cell-magic line (e.g. "%%px --block") from a
cell source: the magic line is IPython syntax, and the remainder of the
cell is the Python program the magic runs. -/
def stripCellMagic (s : String) : String :=
  if strStarts s "%%" then String.mk (dropThroughNl s.data) else s

/-- The top-level modules imported by a cell source (empty if it does not
parse). -/
def pyTopImports (s : String) : List String :=
  match pyParseModule s with
  | some ss =>
      ss.flatMap (fun st =>
        match st with
        | PyStmt.imprt m _ => [m]
        | _ => [])
  | none => []

/-- The external libraries the code cells of the notebook draw on. -/
def pyExternalLibs : List String :=
  ["ipyparallel", "pandas", "numpy", "bodo", "time"]


/-- Whether an output is an exception traceback (nbformat error output). -/
def isErrorOutput : NbOutput → Bool
  | NbOutput.error _ _ _ => true
  | _ => false

/-- The ename of an error output (empty otherwise). -/
def outputEname : NbOutput → String
  | NbOutput.error e _ _ => e
  | _ => ""

/-- The evalue of an error output (empty otherwise). -/
def outputEvalue : NbOutput → String
  | NbOutput.error _ v _ => v
  | _ => ""

/-- Whether an output carries only textual data: stream outputs and error
tracebacks are text by form, and an execute_result must have only text/*
mime types. -/
def outputTextualOnly : NbOutput → Bool
  | NbOutput.stream _ _ => true
  | NbOutput.error _ _ _ => true
  | NbOutput.executeResult data _ => data.all (fun kv => strStarts kv.1 "text/")

/-- The files the repository consists of. -/
def repoFiles : List String :=
  ["README.md", "bodo_getting_started.ipynb"]

/-- Collect the targets of markdown links and images: the text between
each "](" and the following ")". -/
def linkTargetsAux : Nat → List Char → List String
  | 0, _ => []
  | _+1, [] => []
  | f+1, ']' :: '(' :: rest =>
      let t := rest.takeWhile (fun c => !(c == ')'))
      String.mk t :: linkTargetsAux f (rest.drop (t.length + 1))
  | f+1, _ :: rest => linkTargetsAux f rest

def linkTargets (s : String) : List String :=
  linkTargetsAux (s.length + 1) s.data

/-- Link targets that are not external URLs: repository-local paths. -/
def localLinkTargets (s : String) : List String :=
  (linkTargets s).filter (fun t => !strStarts t "http")

/-- All repository-local paths referenced by the documents of the repository:
from the README and from every markdown cell of the notebook. -/
def docLocalRefs : List String :=
  localLinkTargets readmeText
    ++ bodoGettingStarted.cells.flatMap
        (fun c => if c.cellType == "markdown" then localLinkTargets c.source else [])

/-- Cell 5 of the notebook: NUM_GROUPS. -/
def NUM_GROUPS : Nat := 30

/-- Cell 5 of the notebook: NUM_ROWS (20_000_000). -/
def NUM_ROWS : Nat := 20000000

/-- Column A of the generated dataframe: np.arange(NUM_ROWS) % NUM_GROUPS. -/
def dfA (i : Nat) : Nat := i % NUM_GROUPS

/-- Column B of the generated dataframe: np.arange(NUM_ROWS). -/
def dfB (i : Nat) : Nat := i

/-- df.groupby("A").sum() of cell 7: the sum of column B over the rows
whose A equals g. -/
def groupSum (g : Nat) : Nat :=
  ∑ i in Finset.range NUM_ROWS, if dfA i = g then dfB i else 0

/-- df2.B.max() of cell 7: the maximum of the per-group sums over the
groups 0, ..., NUM_GROUPS - 1. -/
def maxGroupSumB : Nat :=
  (Finset.range NUM_GROUPS).sup groupSum

/-- The group keys printed by process p in the captured output of cell 28. -/
def chunkKeys (p : Nat) : List Nat :=
  (pairsCell28 p).map Prod.fst

set_option maxRecDepth 100000

/-- The rows of the generated dataframe whose A column equals g (for
g < 30) are exactly the indices 30k + g below 20000000: there are 666667
of them when g < 20 and 666666 otherwise. -/
theorem groupSum_filter_image (g : Nat) (hg : g < 30) :
    (Finset.range 20000000).filter (fun i => i % 30 = g) =
      (Finset.range (if g < 20 then 666667 else 666666)).image (fun k => 30 * k + g) := by
  ext i
  simp only [Finset.mem_filter, Finset.mem_range, Finset.mem_image]
  constructor
  · rintro ⟨h1, h2⟩
    refine ⟨i / 30, ?_, by omega⟩
    split <;> omega
  · rintro ⟨k, hk, rfl⟩
    split at hk <;> constructor <;> omega

/-- Closed form of the per-group B sum of cell 7. -/
theorem groupSum_closed (g : Nat) (hg : g < 30) :
    groupSum g = if g < 20 then 666667 * g + 6666663333330
                 else 666666 * g + 6666643333350 := by
  have h := groupSum_filter_image g hg
  unfold groupSum dfA dfB NUM_ROWS NUM_GROUPS
  rw [← Finset.sum_filter, h]
  rw [Finset.sum_image (by intro x hx y hy hxy; omega)]
  by_cases h20 : g < 20
  · simp only [if_pos h20]
    rw [Finset.sum_add_distrib, ← Finset.mul_sum, Finset.sum_const,
      Finset.card_range, smul_eq_mul]
    have h2 := Finset.sum_range_id_mul_two 666667
    omega
  · simp only [if_neg h20]
    rw [Finset.sum_add_distrib, ← Finset.mul_sum, Finset.sum_const,
      Finset.card_range, smul_eq_mul]
    have h2 := Finset.sum_range_id_mul_two 666666
    omega

/-- The maximum over the 30 groups of the per-group B sum. -/
theorem maxGroupSumB_eq : maxGroupSumB = 6666676000003 := by
  have h19 : groupSum 19 = 6666676000003 := by
    rw [groupSum_closed 19 (by norm_num)]; norm_num
  unfold maxGroupSumB NUM_GROUPS
  apply le_antisymm
  · exact Finset.sup_le (fun g hg => by
      have hg2 := Finset.mem_range.mp hg
      rw [groupSum_closed g hg2]
      split <;> omega)
  · rw [← h19]
    exact Finset.le_sup (Finset.mem_range.mpr (by norm_num))

/-- C1, counterexample: cell 9 of the notebook is a code cell whose source
does not parse as Python: its first line is the IPython cell magic
%%px --block, and no Python logical line can begin with the % operator, so
the claim that the source of every code cell is syntactically valid Python
fails there. -/
theorem c1_counterexample :
    (nbCell 9).cellType = "code" ∧ pyParseModule (nbCell 9).source = none :=
  ⟨rfl, rfl⟩

/-- C1, amended: the notebook is a well-formed nbformat-4 document (the
embedding is its JSON parse, and every cell satisfies the nbformat schema),
and the source of every code cell is syntactically valid Python once the
leading IPython %%-cell-magic line (present in 10 of the 21 code cells) is
stripped. -/
theorem c1_theorem :
    notebookSchemaOk bodoGettingStarted = true ∧
    bodoGettingStarted.cells.all
      (fun c => !isCodeCell c || (pyParseModule (stripCellMagic c.source)).isSome) = true :=
  ⟨rfl, rfl⟩

/-- C2, counterexample: cell 2 of the notebook (the ipyparallel setup) is a
code cell whose recorded outputs list is empty, so the claim that every
code cell has a non-empty outputs list fails there. -/
theorem c2_counterexample :
    (nbCell 2).cellType = "code" ∧ (nbCell 2).outputs = some [] :=
  ⟨rfl, rfl⟩

/-- C2, amended: every code cell of the notebook carries an outputs field,
and its outputs list is non-empty for every code cell except exactly cells
2 (ipyparallel setup) and 20 (parallel parquet write), whose lists are
empty. -/
theorem c2_theorem :
    bodoGettingStarted.cells.enum.all
      (fun ic => !isCodeCell ic.2 ||
        (ic.2.outputs.isSome &&
          ((cellOutputs ic.2).isEmpty == (ic.1 == 2 || ic.1 == 20)))) = true :=
  rfl

/-- C3: among all captured outputs of all notebook cells there is exactly
one exception traceback; it is a BodoError whose message says that the by
parameter of groupby supports only constant column labels and shows the
offending non-constant key call df.groupby(column_list).sum(); and no code
cell source contains the tokens try, except or raise, so no cell implements
error propagation of its own. -/
theorem c3_theorem :
    (allNbOutputs.filter isErrorOutput).length = 1 ∧
    allNbOutputs.all (fun o => !isErrorOutput o ||
      (outputEname o == "BodoError" &&
        strHas (outputEvalue o)
          "groupby(): \x27by\x27 parameter only supports a constant column label or column labels." &&
        strHas (outputEvalue o) "df.groupby(column_list).sum()")) = true ∧
    bodoGettingStarted.cells.all
      (fun c => !isCodeCell c ||
        (!strHas c.source "raise" && !strHas c.source "except" &&
         !strHas c.source "try")) = true :=
  ⟨rfl, rfl, rfl⟩

/-- C4, counterexample: the markdown of the notebook depends on the
repository-local image path img/groupby.jpg, which is not one of the two
documents README.md and bodo_getting_started.ipynb, so the claim that every
file the documents depend on is one of the two fails. -/
theorem c4_counterexample :
    docLocalRefs.contains "img/groupby.jpg" = true ∧
    repoFiles.contains "img/groupby.jpg" = false :=
  ⟨rfl, rfl⟩

/-- C4, amended: the boundary-facing artifacts are the two human-readable
documents (a markdown file and a notebook; no code, API or CLI file), and
the only repository-local path referenced by the documents beyond the two
is the image img/groupby.jpg; every other link target is an external URL. -/
theorem c4_theorem :
    docLocalRefs = ["img/groupby.jpg"] ∧
    repoFiles.all (fun f => strEnds f ".md" || strEnds f ".ipynb") = true :=
  ⟨rfl, rfl⟩

/-- C5: every cell of the notebook has cell_type markdown or code; the
document is the linear list of these cells. -/
theorem c5_theorem :
    bodoGettingStarted.cells.all
      (fun c => c.cellType == "markdown" || c.cellType == "code") = true :=
  rfl

/-- C6: no cell of the notebook carries attachments, and every captured
output is textual: a text stream, a text traceback, or an execute_result
all of whose payload mime types are text/*. -/
theorem c6_theorem :
    bodoGettingStarted.cells.all (fun c => c.attachments == none) = true ∧
    allNbOutputs.all outputTextualOnly = true :=
  ⟨rfl, rfl⟩

/-- C7: every code cell of the notebook, after stripping the %%px magic
line, parses in the modelled grammar, which contains no loops,
conditionals, classes, exception handling, state machines or inter-process
primitives: only imports, assignments, expression statements and decorated
function definitions; and every module imported by any code cell is one of
the external libraries ipyparallel, pandas, numpy, bodo and time, so all
multi-process behavior is orchestrated by those external tools. -/
theorem c7_theorem :
    bodoGettingStarted.cells.all
      (fun c => !isCodeCell c ||
        ((pyParseModule (stripCellMagic c.source)).isSome &&
         (pyTopImports (stripCellMagic c.source)).all
           (fun m => pyExternalLibs.contains m))) = true :=
  rfl

/-- C8: for the generated dataframe with A = i % 30 and B = i over
20000000 rows, the maximum over the groups of the per-group B sum is
6666676000003, attained at group 19, and this is exactly the number in the
captured stdout of the pandas run (cell 7) and of the Bodo run (cell 9). -/
theorem c8_theorem :
    maxGroupSumB = 6666676000003 ∧ groupSum 19 = 6666676000003 ∧
    cellOutputs (nbCell 7) = [NbOutput.stream "stdout" "6666676000003\n"] ∧
    cellOutputs (nbCell 9) = [NbOutput.stream "stdout" "[stdout:0] 6666676000003\n"] := by
  refine ⟨maxGroupSumB_eq, ?_, rfl, rfl⟩
  rw [groupSum_closed 19 (by norm_num)]
  norm_num

/-- C9: the 30 (A, B) pairs of the pandas parquet readback (cell 22), the
pairs of each of the 4 identical replicated per-process outputs (cell 25),
and the union of the pairs of the 4 distributed per-process outputs
(cell 28) all coincide as multisets, differing only in row order. -/
theorem c9_theorem :
    (pairsCell22 : Multiset (Nat × Nat)) = (pairsCell25 0 : List (Nat × Nat)) ∧
    (pairsCell25 0 : List (Nat × Nat)) = pairsCell25 1 ∧
    (pairsCell25 1 : List (Nat × Nat)) = pairsCell25 2 ∧
    (pairsCell25 2 : List (Nat × Nat)) = pairsCell25 3 ∧
    (pairsCell22 : Multiset (Nat × Nat)) =
      (pairsCell28 0 ++ pairsCell28 1 ++ pairsCell28 2 ++ pairsCell28 3 : List (Nat × Nat)) := by
  refine ⟨by decide, rfl, rfl, rfl, by decide⟩

/-- C10: in the captured output of the distributed run (cell 28), the group
keys printed by the 4 processes are pairwise disjoint and their union is
exactly the keys 0 to 29: the concatenation of the 4 per-process key lists
is, as a multiset, exactly the range 0..29, so every group key appears on
exactly one process. -/
theorem c10_theorem :
    ((chunkKeys 0 ++ chunkKeys 1 ++ chunkKeys 2 ++ chunkKeys 3 : List Nat) : Multiset Nat)
      = Multiset.range 30 := by
  decide
